import Mathlib

/- Shallow embedding of the WhatsApp message filter service (src/index.js).

   The service is a single-stage pipeline: a webhook handler normalizes an
   inbound JSON event, suppresses system messages, classifies the remaining
   body through a GPT adapter, and appends positively classified action
   items to a Google Sheets sink.

   JSON values arriving over the wire (and produced by JSON.parse) are
   modeled by the inductive type JSVal.  JavaScript truthiness, property
   access, and the logical-or fallback idiom of the source are modeled
   explicitly.  The two outbound HTTP calls (the LLM and the sheet sink)
   are modeled by Except-valued transport outcomes passed in as arguments;
   everything the source does with those outcomes is embedded faithfully.
   JSON numbers keep their raw token text, which is enough to decide
   truthiness (zero versus nonzero) without floating point. -/

/-- A JSON-ish JavaScript value; undefv models an absent field. -/
inductive JSVal where
  | undefv : JSVal
  | nullv : JSVal
  | boolean : Bool → JSVal
  | number : String → JSVal
  | string : String → JSVal
  | array : List JSVal → JSVal
  | object : List (String × JSVal) → JSVal

/-- The left brace character, as text. -/
def lbrace : Char := '\x7b'

/-- The right brace character, as text. -/
def rbrace : Char := '\x7d'

/-- True when a JSON number token denotes zero: no nonzero digit appears in
    its mantissa (sign, digits, optional fraction), the exponent ignored. -/
def numRawIsZero (raw : String) : Bool :=
  (raw.data.takeWhile (fun c => c != 'e' && c != 'E')).all
    (fun c => !('1' ≤ c && c ≤ '9'))

/-- JavaScript truthiness of a value. -/
def truthy : JSVal → Bool
  | .undefv => false
  | .nullv => false
  | .boolean b => b
  | .number raw => !(numRawIsZero raw)
  | .string s => s != ""
  | .array _ => true
  | .object _ => true

/-- JavaScript `a || b`: `a` when truthy, else `b`. -/
def jsOr (a b : JSVal) : JSVal := if truthy a then a else b

/-- Property access `v[k]`: on an object the last binding of the key wins,
    anywhere else the result is undefined.  The source only dereferences
    possibly-null values through optional chaining, which is the same map. -/
def jget : JSVal → String → JSVal
  | .object fs, k =>
    match fs.reverse.find? (fun p => p.1 == k) with
    | some p => p.2
    | none => .undefv
  | _, _ => .undefv

/-- The JavaScript whitespace class (the regex class \s, which is also the
    set trimmed by String.prototype.trim). -/
def jsWhitespace (c : Char) : Bool :=
  (9 ≤ c.toNat && c.toNat ≤ 13) || c.toNat = 32 || c.toNat = 0xA0 ||
  c.toNat = 0x1680 || (0x2000 ≤ c.toNat && c.toNat ≤ 0x200A) ||
  c.toNat = 0x2028 || c.toNat = 0x2029 || c.toNat = 0x202F ||
  c.toNat = 0x205F || c.toNat = 0x3000 || c.toNat = 0xFEFF

/-- String.prototype.trim: drop JavaScript whitespace from both ends. -/
def jsTrim (s : String) : String :=
  ⟨((s.data.dropWhile jsWhitespace).reverse.dropWhile jsWhitespace).reverse⟩

/-- Whether `needle` occurs as a contiguous sublist of `hay`
    (String.prototype.includes). -/
def listIncludes (needle : List Char) : List Char → Bool
  | [] => needle.isEmpty
  | c :: t => needle.isPrefixOf (c :: t) || listIncludes needle t

/-- String.prototype.includes on strings. -/
def strIncludes (s sub : String) : Bool := listIncludes sub.data s.data

/-- ASCII lowering, the effect of a case-insensitive regex on the ASCII
    literals appearing in SYSTEM_MESSAGE_PATTERNS. -/
def lowerChar (c : Char) : Char :=
  if 'A' ≤ c && c ≤ 'Z' then Char.ofNat (c.toNat + 32) else c

/-- Lower a character list. -/
def lowerL (l : List Char) : List Char := l.map lowerChar

/-- Line terminators, which the regex dot does not match. -/
def isLT (c : Char) : Bool :=
  c.toNat = 0xA || c.toNat = 0xD || c.toNat = 0x2028 || c.toNat = 0x2029

/-- No line terminator in the list. -/
def noLT (l : List Char) : Bool := l.all (fun c => !(isLT c))

/-- The text after a leading left-to-right mark, if the body starts with
    one (the anchor shared by the first six patterns). -/
def lrmRest (body : String) : Option (List Char) :=
  match body.data with
  | c :: rest => if c.toNat = 0x200E then some rest else none
  | [] => none

/-- Occurrence of `needle` somewhere in `hay` such that everything before
    the occurrence is free of line terminators (the shape of a pattern
    with a dot-star before the literal and nothing anchored after it). -/
def occNoLT (needle : List Char) : List Char → Bool
  | [] => needle.isEmpty
  | c :: t => needle.isPrefixOf (c :: t) || (!(isLT c) && occNoLT needle t)

/-- Pattern 1: LRM prefix, then a line with "changed the group" in it,
    anchored to the end of the input. -/
def patChangedGroup (body : String) : Bool :=
  match lrmRest body with
  | some rest => noLT rest && listIncludes "changed the group".data (lowerL rest)
  | none => false

/-- Pattern 2: LRM prefix, a line ending exactly in "added you". -/
def patAddedYou (body : String) : Bool :=
  match lrmRest body with
  | some rest => noLT rest && "added you".data.isSuffixOf (lowerL rest)
  | none => false

/-- Pattern 3: LRM prefix, a line with "added" in it, anchored at the end. -/
def patAdded (body : String) : Bool :=
  match lrmRest body with
  | some rest => noLT rest && listIncludes "added".data (lowerL rest)
  | none => false

/-- Pattern 4: LRM prefix, a line with "removed" in it, anchored at the end. -/
def patRemoved (body : String) : Bool :=
  match lrmRest body with
  | some rest => noLT rest && listIncludes "removed".data (lowerL rest)
  | none => false

/-- Pattern 5: LRM prefix, a line ending exactly in "left". -/
def patLeft (body : String) : Bool :=
  match lrmRest body with
  | some rest => noLT rest && "left".data.isSuffixOf (lowerL rest)
  | none => false

/-- Pattern 6: LRM prefix, "created group" reached on the first line, with
    no end anchor. -/
def patCreatedGroup (body : String) : Bool :=
  match lrmRest body with
  | some rest => occNoLT "created group".data (lowerL rest)
  | none => false

/-- Pattern 7: the end-to-end-encryption banner prefix. -/
def patEncrypted (body : String) : Bool :=
  "messages and calls are end-to-end encrypted".data.isPrefixOf (lowerL body.data)

/-- Pattern 8: the waiting-for-this-message placeholder prefix. -/
def patWaiting (body : String) : Bool :=
  "waiting for this message".data.isPrefixOf (lowerL body.data)

/-- Pattern 9: the deleted-by-sender placeholder prefix. -/
def patDeletedThis (body : String) : Bool :=
  "this message was deleted".data.isPrefixOf (lowerL body.data)

/-- Pattern 10: the deleted-by-you placeholder prefix. -/
def patYouDeleted (body : String) : Bool :=
  "you deleted this message".data.isPrefixOf (lowerL body.data)

/-- Pattern 11: exactly the literal "null", case-insensitively. -/
def patNull (body : String) : Bool := lowerL body.data == "null".data

/-- Pattern 12: the whole body is whitespace. -/
def patBlank (body : String) : Bool := body.data.all jsWhitespace

/-- The fixed pattern list of src/index.js lines 12-25, in order. -/
def SYSTEM_MESSAGE_PATTERNS : List (String → Bool) :=
  [patChangedGroup, patAddedYou, patAdded, patRemoved, patLeft,
   patCreatedGroup, patEncrypted, patWaiting, patDeletedThis,
   patYouDeleted, patNull, patBlank]

/-- isSystemMessage of src/index.js lines 27-30: an empty or all-whitespace
    body is a system message, otherwise any pattern matching makes it one. -/
def isSystemMessage (body : String) : Bool :=
  if body = "" ∨ jsTrim body = "" then true
  else SYSTEM_MESSAGE_PATTERNS.any (fun p => p body)

/- JSON.parse, modeled as a recursive-descent parser over the character
   list, with a fuel argument bounding recursion.  It accepts exactly the
   JSON grammar (strings with escapes, numbers, literals, arrays, objects,
   the four whitespace characters between tokens) and fails on anything
   else, mirroring a JSON.parse exception with `none`. -/

/-- The four JSON inter-token whitespace characters. -/
def jsonWsChar (c : Char) : Bool :=
  c = ' ' || c = '\t' || c = '\n' || c = '\r'

/-- Skip JSON whitespace. -/
def jsonSkipWs : List Char → List Char
  | [] => []
  | c :: cs => if jsonWsChar c then jsonSkipWs cs else c :: cs

/-- Value of a hexadecimal digit. -/
def hexDigitVal (c : Char) : Option Nat :=
  let n := c.toNat
  if 48 ≤ n && n ≤ 57 then some (n - 48)
  else if 97 ≤ n && n ≤ 102 then some (n - 87)
  else if 65 ≤ n && n ≤ 70 then some (n - 55)
  else none

/-- Body of a JSON string after the opening quote: returns the decoded
    string and the input after the closing quote. -/
def parseStringBody : Nat → List Char → List Char → Option (String × List Char)
  | 0, _, _ => none
  | _+1, [], _ => none
  | fuel+1, c :: rest, acc =>
    if c = '"' then some (⟨acc.reverse⟩, rest)
    else if c = '\\' then
      match rest with
      | [] => none
      | e :: rest2 =>
        if e = '"' then parseStringBody fuel rest2 ('"' :: acc)
        else if e = '\\' then parseStringBody fuel rest2 ('\\' :: acc)
        else if e = '/' then parseStringBody fuel rest2 ('/' :: acc)
        else if e = 'b' then parseStringBody fuel rest2 (Char.ofNat 8 :: acc)
        else if e = 'f' then parseStringBody fuel rest2 (Char.ofNat 12 :: acc)
        else if e = 'n' then parseStringBody fuel rest2 ('\n' :: acc)
        else if e = 'r' then parseStringBody fuel rest2 ('\r' :: acc)
        else if e = 't' then parseStringBody fuel rest2 ('\t' :: acc)
        else if e = 'u' then
          match rest2 with
          | h1 :: h2 :: h3 :: h4 :: rest3 =>
            match hexDigitVal h1, hexDigitVal h2, hexDigitVal h3, hexDigitVal h4 with
            | some a, some b, some c2, some d =>
              parseStringBody fuel rest3
                (Char.ofNat (((a * 16 + b) * 16 + c2) * 16 + d) :: acc)
            | _, _, _, _ => none
          | _ => none
        else none
    else if c.toNat < 32 then none
    else parseStringBody fuel rest (c :: acc)

/-- Leading run of decimal digits, and the rest. -/
def spanDigits : List Char → (List Char × List Char)
  | [] => ([], [])
  | c :: cs =>
    if '0' ≤ c && c ≤ '9' then
      let (d, r) := spanDigits cs
      (c :: d, r)
    else ([], c :: cs)

/-- Integer part of a JSON number: a lone zero, or a nonzero digit then
    digits.  Leading zeros are a syntax error. -/
def parseIntPart : List Char → Option (List Char × List Char)
  | [] => none
  | c :: cs =>
    if c = '0' then some ([c], cs)
    else if '1' ≤ c && c ≤ '9' then
      let (d, r) := spanDigits cs
      some (c :: d, r)
    else none

/-- Optional fraction part; a dot with no digit after it is a syntax error. -/
def parseFrac : List Char → Option (List Char × List Char)
  | '.' :: r =>
    match spanDigits r with
    | ([], _) => none
    | (d, r2) => some ('.' :: d, r2)
  | cs => some ([], cs)

/-- Optional exponent part; an e with no digit after it is a syntax error. -/
def parseExp : List Char → Option (List Char × List Char)
  | c :: r =>
    if c = 'e' || c = 'E' then
      let (sgn, r1) :=
        match r with
        | s :: r2 => if s = '+' || s = '-' then ([s], r2) else (([] : List Char), r)
        | [] => ([], ([] : List Char))
      match spanDigits r1 with
      | ([], _) => none
      | (d, r2) => some (c :: (sgn ++ d), r2)
    else some ([], c :: r)
  | [] => some ([], [])

/-- A JSON number, kept as its raw token text. -/
def parseNumber (cs : List Char) : Option (JSVal × List Char) := do
  let (sign, cs1) :=
    match cs with
    | '-' :: r => ((['-'] : List Char), r)
    | _ => ([], cs)
  let (ip, cs2) ← parseIntPart cs1
  let (fp, cs3) ← parseFrac cs2
  let (ep, cs4) ← parseExp cs3
  pure (.number ⟨sign ++ ip ++ fp ++ ep⟩, cs4)

mutual

/-- A JSON value, returning it and the unconsumed input. -/
def parseValue : Nat → List Char → Option (JSVal × List Char)
  | 0, _ => none
  | fuel+1, cs =>
    match jsonSkipWs cs with
    | [] => none
    | c :: rest =>
      if c = '"' then
        match parseStringBody (rest.length + 1) rest [] with
        | some (s, r) => some (.string s, r)
        | none => none
      else if c = lbrace then parseObjectBody fuel rest
      else if c = '[' then parseArrayBody fuel rest
      else if c = 't' then
        match rest with
        | 'r' :: 'u' :: 'e' :: r => some (.boolean true, r)
        | _ => none
      else if c = 'f' then
        match rest with
        | 'a' :: 'l' :: 's' :: 'e' :: r => some (.boolean false, r)
        | _ => none
      else if c = 'n' then
        match rest with
        | 'u' :: 'l' :: 'l' :: r => some (.nullv, r)
        | _ => none
      else parseNumber (c :: rest)

/-- An object body after the opening brace. -/
def parseObjectBody : Nat → List Char → Option (JSVal × List Char)
  | 0, _ => none
  | fuel+1, cs =>
    match jsonSkipWs cs with
    | [] => none
    | c :: rest =>
      if c = rbrace then some (.object [], rest)
      else parseMembers fuel (c :: rest) []

/-- Members of an object, one "key": value at a time. -/
def parseMembers : Nat → List Char → List (String × JSVal) → Option (JSVal × List Char)
  | 0, _, _ => none
  | fuel+1, cs, acc =>
    match jsonSkipWs cs with
    | '"' :: rest =>
      match parseStringBody (rest.length + 1) rest [] with
      | none => none
      | some (key, r1) =>
        match jsonSkipWs r1 with
        | ':' :: r2 =>
          match parseValue fuel r2 with
          | none => none
          | some (v, r3) =>
            match jsonSkipWs r3 with
            | ',' :: r4 => parseMembers fuel r4 (acc ++ [(key, v)])
            | c :: r4 => if c = rbrace then some (.object (acc ++ [(key, v)]), r4) else none
            | [] => none
        | _ => none
    | _ => none

/-- An array body after the opening bracket. -/
def parseArrayBody : Nat → List Char → Option (JSVal × List Char)
  | 0, _ => none
  | fuel+1, cs =>
    match jsonSkipWs cs with
    | [] => none
    | c :: rest =>
      if c = ']' then some (.array [], rest)
      else parseElems fuel (c :: rest) []

/-- Elements of an array, one value at a time. -/
def parseElems : Nat → List Char → List JSVal → Option (JSVal × List Char)
  | 0, _, _ => none
  | fuel+1, cs, acc =>
    match parseValue fuel cs with
    | none => none
    | some (v, r1) =>
      match jsonSkipWs r1 with
      | ',' :: r2 => parseElems fuel r2 (acc ++ [v])
      | c :: r2 => if c = ']' then some (.array (acc ++ [v]), r2) else none
      | [] => none

end

/-- JSON.parse: the whole input must be one value plus whitespace;
    `none` models the SyntaxError exception. -/
def JSONparse (s : String) : Option JSVal :=
  match parseValue (2 * s.data.length + 4) s.data with
  | some (v, rest) => if jsonSkipWs rest = [] then some v else none
  | none => none

/-- The regex match of src/index.js line 54 on a character list: the
    sublist running from the first left brace to the last right brace
    after it, if both exist (a greedy dot-star between escaped braces). -/
def jsonExtractL (cs : List Char) : Option (List Char) :=
  match cs.dropWhile (fun c => c != lbrace) with
  | [] => none
  | _ :: afterBrace =>
    match afterBrace.reverse.dropWhile (fun c => c != rbrace) with
    | [] => none
    | revAfter => some (lbrace :: revAfter.reverse)

/-- The regex match of line 54 on a string. -/
def jsonExtract (s : String) : Option String :=
  (jsonExtractL s.data).map (fun l => ⟨l⟩)

/-- The classification every failure path degrades to. -/
def defaultClassification : JSVal := .object [("isActionItem", .boolean false)]

/-- classifyWithGPT of src/index.js lines 32-63, as a function of the LLM
    transport outcome: an axios rejection (network failure or non-2xx
    status) lands in the catch and yields the default; otherwise the raw
    model text is trimmed, the brace-delimited substring is extracted and
    parsed, and any missing match or parse exception also yields the
    default. -/
def classifyWithGPT (transport : Except String String) : JSVal :=
  match transport with
  | .error _ => defaultClassification
  | .ok raw =>
    let content := jsTrim raw
    match jsonExtract content with
    | some s =>
      match JSONparse s with
      | some v => v
      | none => defaultClassification
    | none => defaultClassification

/-- writeToGoogleSheets of src/index.js lines 65-76, as a function of the
    sink transport outcome: true on a fulfilled POST (any 2xx), false on
    any rejection, which is caught and logged, never rethrown. -/
def writeToGoogleSheets (transport : Except String Unit) : Bool :=
  match transport with
  | .ok _ => true
  | .error _ => false

/-- Line 85: the event tag, `payload.event || 'message'`. -/
def eventTagOf (payload : JSVal) : JSVal :=
  jsOr (jget payload "event") (.string "message")

/-- Line 88: `event.includes('message')`.  On a string this is substring
    containment; on an array it is Array.prototype.includes; on anything
    else the method is undefined and calling it throws a TypeError. -/
def includesMessage (v : JSVal) : Except String Bool :=
  match v with
  | .string s => .ok (strIncludes s "message")
  | .array xs => .ok (xs.any (fun e =>
      match e with
      | .string t => t == "message"
      | _ => false))
  | _ => .error "event.includes is not a function"

/-- Line 94: `payload.payload || payload`. -/
def messageDataOf (payload : JSVal) : JSVal :=
  jsOr (jget payload "payload") payload

/-- Line 95: `messageData.body || messageData.text || messageData.caption || ''`. -/
def bodyOf (md : JSVal) : JSVal :=
  jsOr (jsOr (jsOr (jget md "body") (jget md "text")) (jget md "caption")) (.string "")

/-- Line 96: `messageData.fromMe || messageData.from_me || false`. -/
def fromMeOf (md : JSVal) : JSVal :=
  jsOr (jsOr (jget md "fromMe") (jget md "from_me")) (.boolean false)

/-- Line 105 applied to the extracted body value: `!body` covers every
    falsy body, `.trim()` exists only on strings, and a truthy non-string
    body makes the call throw. -/
def isSystemMessageJS (body : JSVal) : Except String Bool :=
  if !(truthy body) then .ok true
  else
    match body with
    | .string s => .ok (isSystemMessage s)
    | _ => .error "body.trim is not a function"

/-- Line 111: `messageData.chatId || messageData.from || messageData.chat?.id || ''`. -/
def chatIdOf (md : JSVal) : JSVal :=
  jsOr (jsOr (jsOr (jget md "chatId") (jget md "from")) (jget (jget md "chat") "id"))
    (.string "")

/-- Line 116: `chatId.split('@')[0]`, the part before the first at sign;
    split exists only on strings. -/
def splitAtFirst (v : JSVal) : Except String JSVal :=
  match v with
  | .string s => .ok (.string ⟨s.data.takeWhile (fun c => c != '@')⟩)
  | _ => .error "chatId.split is not a function"

/-- Lines 112-117: the sourceName fallback chain.  Logical-or evaluates
    left to right and short-circuits, so the split (the only throwing
    step) runs only when all four name fields are falsy. -/
def sourceNameOf (md chatId : JSVal) : Except String JSVal :=
  let n1 := jget (jget md "_data") "notifyName"
  if truthy n1 then .ok n1 else
  let n2 := jget md "notifyName"
  if truthy n2 then .ok n2 else
  let n3 := jget md "pushName"
  if truthy n3 then .ok n3 else
  let n4 := jget (jget md "chat") "name"
  if truthy n4 then .ok n4 else
  match splitAtFirst chatId with
  | .error e => .error e
  | .ok part => .ok (jsOr part (.string "Unknown"))

/-- Lines 127-136: the record POSTed to the sheet sink, with the falsy
    classification fields replaced by their defaults. -/
def sheetDataOf (now : String) (sourceName body cls chatId : JSVal) : JSVal :=
  .object [
    ("timestamp", .string now),
    ("source", sourceName),
    ("message", body),
    ("responsible", jsOr (jget cls "responsible") (.string "Unknown")),
    ("urgency", jsOr (jget cls "urgency") (.string "Normal")),
    ("due", jsOr (jget cls "due") (.string "None")),
    ("status", .string "Open"),
    ("chatId", chatId)]

/-- Observable outcome of one webhook invocation: HTTP status, JSON
    response body, and whether the classifier and the sink were reached
    (and with which record). -/
structure WebhookResult where
  status : Nat
  resBody : JSVal
  classifierCalled : Bool
  sinkCalled : Bool
  sinkRecord : Option JSVal

/-- A 200 skip response. -/
def skipResp (reason : String) : WebhookResult :=
  { status := 200
    resBody := .object [("status", .string "skipped"), ("reason", .string reason)]
    classifierCalled := false
    sinkCalled := false
    sinkRecord := none }

/-- The try block of the handler, src/index.js lines 81-151, sequenced
    exactly as the source: event filter, unwrap, outgoing filter, system
    filter, source extraction, classification, then the sink branch.
    An error is a thrown exception escaping to the catch. -/
def webhookTry (payload : JSVal) (llm : Except String String)
    (sink : Except String Unit) (now : String) : Except String WebhookResult :=
  match includesMessage (eventTagOf payload) with
  | .error e => .error e
  | .ok isMsg =>
    if !isMsg then .ok (skipResp "non-message event")
    else
      let md := messageDataOf payload
      let body := bodyOf md
      let fromMe := fromMeOf md
      if truthy fromMe then .ok (skipResp "outgoing message")
      else
        match isSystemMessageJS body with
        | .error e => .error e
        | .ok sys =>
          if sys then .ok (skipResp "system or empty message")
          else
            let chatId := chatIdOf md
            match sourceNameOf md chatId with
            | .error e => .error e
            | .ok sourceName =>
              let classification := classifyWithGPT llm
              if truthy (jget classification "isActionItem") then
                let sheetData := sheetDataOf now sourceName body classification chatId
                let _ok := writeToGoogleSheets sink
                .ok { status := 200
                      resBody := .object [("status", .string "processed"),
                                          ("isActionItem", .boolean true),
                                          ("classification", classification)]
                      classifierCalled := true
                      sinkCalled := true
                      sinkRecord := some sheetData }
              else
                .ok { status := 200
                      resBody := .object [("status", .string "processed"),
                                          ("isActionItem", .boolean false)]
                      classifierCalled := true
                      sinkCalled := false
                      sinkRecord := none }

/-- The POST /webhook handler, lines 78-157: the try block with its
    top-level catch converting any exception to a 500 error response.
    Every throwing step precedes the classifier call, so the catch path
    reaches neither the classifier nor the sink. -/
def webhookHandler (payload : JSVal) (llm : Except String String)
    (sink : Except String Unit) (now : String) : WebhookResult :=
  match webhookTry payload llm sink now with
  | .ok r => r
  | .error msg =>
    { status := 500
      resBody := .object [("status", .string "error"), ("message", .string msg)]
      classifierCalled := false
      sinkCalled := false
      sinkRecord := none }

/- Helper lemmas about dropWhile, shared by several claim proofs. -/

/-- dropWhile swallows a leading block on which the predicate holds. -/
theorem dropWhile_all_true (pb : Char → Bool) (l1 l2 : List Char)
    (h : ∀ c ∈ l1, pb c = true) :
    (l1 ++ l2).dropWhile pb = l2.dropWhile pb := by
  induction l1 with
  | nil => rfl
  | cons a t ih =>
    have ha : pb a = true := h a (by simp)
    simp only [List.cons_append, List.dropWhile_cons, ha, if_true]
    exact ih (fun c hc => h c (by simp [hc]))

/-- dropWhile over an append whose right part starts with a failing
    character stops somewhere in the left part: the result is a suffix of
    the left part (given here just through membership) glued to the right
    part unchanged. -/
theorem dropWhile_append_stop (pb : Char → Bool) (l1 l2 : List Char)
    (h : ∀ c, l2.head? = some c → pb c = false) :
    ∃ l1', (l1 ++ l2).dropWhile pb = l1' ++ l2 ∧ ∀ c ∈ l1', c ∈ l1 := by
  induction l1 with
  | nil =>
    refine ⟨[], ?_, by simp⟩
    cases l2 with
    | nil => rfl
    | cons b t => simp [List.dropWhile_cons, h b rfl]
  | cons a t ih =>
    by_cases ha : pb a = true
    · obtain ⟨l1', hd, hs⟩ := ih
      exact ⟨l1', by simp [List.dropWhile_cons, ha, hd],
             fun c hc => by simp [hs c hc]⟩
    · exact ⟨a :: t, by simp [List.dropWhile_cons, ha], fun c hc => hc⟩

/-- Claim C3: for every string consisting only of whitespace characters,
    and for the empty string, isSystemMessage returns true. -/
theorem isSystemMessage_whitespace (s : String)
    (h : ∀ c ∈ s.data, jsWhitespace c = true) :
    isSystemMessage s = true := by
  have htrim : jsTrim s = "" := by
    unfold jsTrim
    have hnil : s.data.dropWhile jsWhitespace = [] :=
      List.dropWhile_eq_nil_iff.mpr h
    rw [hnil]
    rfl
  unfold isSystemMessage
  rw [if_pos (Or.inr htrim)]

/-- Witness for C3 at a concrete all-whitespace string (and the empty
    string, which satisfies the hypothesis vacuously). -/
theorem isSystemMessage_whitespace_witness :
    isSystemMessage " \t\n " = true ∧ isSystemMessage "" = true :=
  ⟨isSystemMessage_whitespace " \t\n " (by decide),
   isSystemMessage_whitespace "" (by decide)⟩

/-- Claim C4: every body matching one of the fixed system-message patterns
    is classified as a system message; the group-change, encryption-banner,
    waiting, deleted-message and "null" families all match (the literal
    families case-insensitively), while the ordinary sentence about an
    invoice does not. -/
theorem isSystemMessage_patterns :
    (∀ b : String, SYSTEM_MESSAGE_PATTERNS.any (fun p => p b) = true →
      isSystemMessage b = true)
    ∧ isSystemMessage "‎John changed the group description" = true
    ∧ isSystemMessage "‎John added you" = true
    ∧ isSystemMessage "‎Alice added Bob" = true
    ∧ isSystemMessage "‎Alice removed Bob" = true
    ∧ isSystemMessage "‎Carol LEFT" = true
    ∧ isSystemMessage "‎Dave created group \"team\"" = true
    ∧ isSystemMessage "Messages and calls are end-to-end encrypted. No one outside this chat can read them." = true
    ∧ isSystemMessage "Waiting for this message" = true
    ∧ isSystemMessage "This message was deleted" = true
    ∧ isSystemMessage "You deleted this message" = true
    ∧ isSystemMessage "NULL" = true
    ∧ isSystemMessage "Can you send the invoice by Friday?" = false := by
  refine ⟨?_, by decide, by decide, by decide, by decide, by decide, by decide,
          by decide, by decide, by decide, by decide, by decide, by decide⟩
  intro b h
  unfold isSystemMessage
  split
  · rfl
  · exact h

/-- Witness for C4, discharging the pattern-match hypothesis at a concrete
    system-message body. -/
theorem isSystemMessage_patterns_witness :
    isSystemMessage "‎Bob added you" = true :=
  isSystemMessage_patterns.1 "‎Bob added you" (by decide)


/-- Every normally-returned response of the try block has HTTP status 200:
    the only non-2xx path is the catch. -/
theorem webhookTry_ok_200 (payload : JSVal) (llm : Except String String)
    (sink : Except String Unit) (now : String) (r : WebhookResult)
    (h : webhookTry payload llm sink now = .ok r) : r.status = 200 := by
  unfold webhookTry at h
  rcases hev : includesMessage (eventTagOf payload) with e | isMsg <;> rw [hev] at h
  · cases h
  · simp only [] at h
    cases isMsg
    · simp only [Bool.not_false, if_true] at h
      cases h
      rfl
    · simp only [Bool.not_true, Bool.false_eq_true, if_false] at h
      by_cases hfm : truthy (fromMeOf (messageDataOf payload)) = true
      · rw [if_pos hfm] at h
        cases h
        rfl
      · rw [if_neg hfm] at h
        rcases hsys : isSystemMessageJS (bodyOf (messageDataOf payload)) with e | sys <;>
          rw [hsys] at h
        · cases h
        · cases sys
          · simp only [Bool.false_eq_true, if_false] at h
            rcases hsn : sourceNameOf (messageDataOf payload)
                (chatIdOf (messageDataOf payload)) with e | sn <;> rw [hsn] at h <;>
                simp only [] at h
            · cases h
            · by_cases hact : truthy (jget (classifyWithGPT llm) "isActionItem") = true
              · rw [if_pos hact] at h
                cases h
                rfl
              · rw [if_neg hact] at h
                cases h
                rfl
          · simp only [if_pos rfl] at h
            cases h
            rfl

/-- Claim C9: the sink append returns true exactly on a fulfilled (2xx)
    POST and false on any failure, without throwing; and the webhook
    response is entirely independent of the sink outcome, so a
    positively-classified message reports success either way. -/
theorem sink_result_policy :
    (∀ e, writeToGoogleSheets (.error e) = false)
    ∧ writeToGoogleSheets (.ok ()) = true
    ∧ ∀ payload llm now s1 s2,
        webhookHandler payload llm s1 now = webhookHandler payload llm s2 now :=
  ⟨fun _ => rfl, rfl, fun _ _ _ _ _ => rfl⟩

/-- Claim C1: classifyWithGPT degrades every failure to the default
    classification: a rejected transport (network error or non-2xx
    status), a model output with no brace-delimited substring, and a
    substring that is not valid JSON all yield the object with
    isActionItem false; and whenever the pipeline reaches classification
    it still responds 200, never an error status. -/
theorem classify_failure_policy :
    (∀ e, classifyWithGPT (.error e) = defaultClassification)
    ∧ (∀ raw, jsonExtract (jsTrim raw) = none →
        classifyWithGPT (.ok raw) = defaultClassification)
    ∧ (∀ raw s, jsonExtract (jsTrim raw) = some s → JSONparse s = none →
        classifyWithGPT (.ok raw) = defaultClassification)
    ∧ (∀ payload llm sink now,
        (webhookHandler payload llm sink now).classifierCalled = true →
        (webhookHandler payload llm sink now).status = 200) := by
  refine ⟨fun e => rfl, ?_, ?_, ?_⟩
  · intro raw h
    simp only [classifyWithGPT, h]
  · intro raw s h1 h2
    simp only [classifyWithGPT, h1, h2]
  · intro payload llm sink now h
    cases heq : webhookTry payload llm sink now with
    | ok r =>
      have hr : webhookHandler payload llm sink now = r := by
        unfold webhookHandler
        rw [heq]
      rw [hr]
      exact webhookTry_ok_200 payload llm sink now r heq
    | error e =>
      have hr : webhookHandler payload llm sink now =
          { status := 500
            resBody := .object [("status", .string "error"), ("message", .string e)]
            classifierCalled := false
            sinkCalled := false
            sinkRecord := none } := by
        unfold webhookHandler
        rw [heq]
      rw [hr] at h
      exact absurd h (by simp)

/-- Witness for C1: a missing-JSON output, a malformed-JSON output, and a
    full pipeline run whose classifier transport fails, all at concrete
    inputs. -/
theorem classify_failure_policy_witness :
    classifyWithGPT (.ok "the message is not an action item") = defaultClassification
    ∧ classifyWithGPT (.ok "\x7bnot json\x7d") = defaultClassification
    ∧ (webhookHandler (.object [("body", .string "hello")]) (.error "boom")
        (.ok ()) "T").status = 200 :=
  ⟨classify_failure_policy.2.1 "the message is not an action item" rfl,
   classify_failure_policy.2.2.1 "\x7bnot json\x7d" "\x7bnot json\x7d" rfl rfl,
   classify_failure_policy.2.2.2 (.object [("body", .string "hello")])
     (.error "boom") (.ok ()) "T" rfl⟩

/-- The fromMe normalization as the spec words it: the first defined of
    the fromMe and from_me fields, false when neither is defined.  Stated
    for comparison with fromMeOf, the value the source computes. -/
def fromMe_firstDefined (md : JSVal) : JSVal :=
  match jget md "fromMe" with
  | .undefv =>
    match jget md "from_me" with
    | .undefv => .boolean false
    | v => v
  | v => v

/-- Claim C5 (amended): the normalized fromMe value is the first truthy of
    the message data's fromMe and from_me fields, defaulting to false; a
    defined-but-falsy fromMe falls through to from_me.  Whenever the value
    is truthy the handler responds with the outgoing-message skip and
    reaches neither the classifier nor the sink. -/
theorem fromMe_truthy_skips (payload : JSVal) (llm : Except String String)
    (sink : Except String Unit) (now : String)
    (hev : includesMessage (eventTagOf payload) = .ok true)
    (hfm : truthy (fromMeOf (messageDataOf payload)) = true) :
    (webhookHandler payload llm sink now).status = 200
    ∧ (webhookHandler payload llm sink now).resBody =
        .object [("status", .string "skipped"), ("reason", .string "outgoing message")]
    ∧ (webhookHandler payload llm sink now).classifierCalled = false
    ∧ (webhookHandler payload llm sink now).sinkCalled = false := by
  have h1 : webhookTry payload llm sink now = .ok (skipResp "outgoing message") := by
    unfold webhookTry
    rw [hev]
    simp only [Bool.not_true, Bool.false_eq_true, if_false]
    rw [if_pos hfm]
  have h2 : webhookHandler payload llm sink now = skipResp "outgoing message" := by
    unfold webhookHandler
    rw [h1]
  rw [h2]
  exact ⟨rfl, rfl, rfl, rfl⟩

/-- Witness for C5 at a concrete outgoing message. -/
theorem fromMe_truthy_skips_witness :
    (webhookHandler (.object [("fromMe", .boolean true), ("body", .string "hi")])
      (.error "x") (.ok ()) "T").resBody =
      .object [("status", .string "skipped"), ("reason", .string "outgoing message")] :=
  (fromMe_truthy_skips (.object [("fromMe", .boolean true), ("body", .string "hi")])
    (.error "x") (.ok ()) "T" rfl rfl).2.1

/-- Counterexample to C5 as stated: with fromMe defined as false and
    from_me true, the first DEFINED value is false, but the source's
    logical-or takes the first TRUTHY value, true, and the handler skips
    the event as outgoing. -/
theorem fromMe_firstDefined_cex :
    fromMe_firstDefined (.object [("fromMe", .boolean false), ("from_me", .boolean true)])
      = .boolean false
    ∧ fromMeOf (.object [("fromMe", .boolean false), ("from_me", .boolean true)])
      = .boolean true
    ∧ (webhookHandler (.object [("payload", .object
          [("body", .string "hi"), ("fromMe", .boolean false), ("from_me", .boolean true)])])
        (.error "x") (.ok ()) "T").resBody =
        .object [("status", .string "skipped"), ("reason", .string "outgoing message")] :=
  ⟨rfl, rfl, rfl⟩

/-- Claim C8 (amended): the event tag defaults to "message" whenever the
    event field is absent or falsy (not only when absent); whenever the
    tag is a string not containing the substring "message" the handler
    responds with the non-message skip and does nothing further. -/
theorem nonmessage_event_skip :
    (∀ payload : JSVal, truthy (jget payload "event") = false →
      eventTagOf payload = .string "message")
    ∧ ∀ (payload : JSVal) llm sink (now : String) (t : String),
        eventTagOf payload = .string t → strIncludes t "message" = false →
        (webhookHandler payload llm sink now).status = 200
        ∧ (webhookHandler payload llm sink now).resBody =
            .object [("status", .string "skipped"), ("reason", .string "non-message event")]
        ∧ (webhookHandler payload llm sink now).classifierCalled = false
        ∧ (webhookHandler payload llm sink now).sinkCalled = false := by
  constructor
  · intro payload h
    unfold eventTagOf jsOr
    rw [h]
    rfl
  · intro payload llm sink now t hev hnc
    have h0 : includesMessage (eventTagOf payload) = .ok false := by
      rw [hev]
      simp only [includesMessage, hnc]
    have h1 : webhookTry payload llm sink now = .ok (skipResp "non-message event") := by
      unfold webhookTry
      rw [h0]
      simp only [Bool.not_false, if_true]
    have h2 : webhookHandler payload llm sink now = skipResp "non-message event" := by
      unfold webhookHandler
      rw [h1]
    rw [h2]
    exact ⟨rfl, rfl, rfl, rfl⟩

/-- Witness for C8: session.status is skipped as a non-message event, and
    an absent event field defaults the tag to "message". -/
theorem nonmessage_event_skip_witness :
    eventTagOf (.object [("event", .string "session.status")]) = .string "session.status"
    ∧ (webhookHandler (.object [("event", .string "session.status")])
        (.error "x") (.ok ()) "T").resBody =
        .object [("status", .string "skipped"), ("reason", .string "non-message event")]
    ∧ eventTagOf (.object [("body", .string "hi")]) = .string "message" :=
  ⟨rfl,
   (nonmessage_event_skip.2 (.object [("event", .string "session.status")])
     (.error "x") (.ok ()) "T" "session.status" rfl rfl).2.1,
   nonmessage_event_skip.1 (.object [("body", .string "hi")]) rfl⟩

/-- Counterexample to C8 as stated: an event field PRESENT as the empty
    string does not contain "message", so per the claim the handler should
    skip the event as non-message; the source's logical-or replaces the
    falsy empty string by "message" and processes the event instead. -/
theorem eventTag_empty_string_cex :
    jget (.object [("event", .string ""), ("body", .string "hello")]) "event" = .string ""
    ∧ strIncludes "" "message" = false
    ∧ (webhookHandler (.object [("event", .string ""), ("body", .string "hello")])
        (.error "x") (.ok ()) "T").resBody =
        .object [("status", .string "processed"), ("isActionItem", .boolean false)] :=
  ⟨rfl, rfl, rfl⟩

/-- An event value on which `.includes` throws a TypeError: truthy and
    neither a string nor an array. -/
def throwsOnIncludes : JSVal → Bool
  | .string _ => false
  | .array _ => false
  | v => truthy v

/-- Claim C10 (amended): when the event field holds a TRUTHY value that is
    neither a string nor an array (a nonzero number, true, or an object),
    the substring test throws and the handler responds 500 with an error
    body, reaching neither the classifier nor the sink.  Falsy non-string
    values (false, 0, null) are replaced by "message" by the logical-or,
    and arrays use Array.prototype.includes, so neither produces a 500. -/
theorem event_truthy_nonstring_500 (payload : JSVal) (llm : Except String String)
    (sink : Except String Unit) (now : String)
    (h : throwsOnIncludes (jget payload "event") = true) :
    (webhookHandler payload llm sink now).status = 500
    ∧ jget (webhookHandler payload llm sink now).resBody "status" = .string "error"
    ∧ (webhookHandler payload llm sink now).classifierCalled = false
    ∧ (webhookHandler payload llm sink now).sinkCalled = false := by
  have hinc : includesMessage (eventTagOf payload) =
      .error "event.includes is not a function" := by
    unfold eventTagOf jsOr
    cases hv : jget payload "event" with
    | undefv => rw [hv] at h; simp [throwsOnIncludes, truthy] at h
    | nullv => rw [hv] at h; simp [throwsOnIncludes, truthy] at h
    | boolean b =>
      rw [hv] at h
      simp only [throwsOnIncludes, truthy] at h
      subst h
      rfl
    | number raw =>
      rw [hv] at h
      simp only [throwsOnIncludes, truthy] at h
      rw [if_pos (show truthy (JSVal.number raw) = true from h)]
      rfl
    | string s => rw [hv] at h; simp [throwsOnIncludes] at h
    | array xs => rw [hv] at h; simp [throwsOnIncludes] at h
    | object fs =>
      rfl
  have h1 : webhookTry payload llm sink now =
      .error "event.includes is not a function" := by
    unfold webhookTry
    rw [hinc]
  have h2 : webhookHandler payload llm sink now =
      { status := 500
        resBody := .object [("status", .string "error"),
                            ("message", .string "event.includes is not a function")]
        classifierCalled := false
        sinkCalled := false
        sinkRecord := none } := by
    unfold webhookHandler
    rw [h1]
  rw [h2]
  exact ⟨rfl, rfl, rfl, rfl⟩

/-- Witness for C10 at the concrete event value true. -/
theorem event_truthy_nonstring_500_witness :
    (webhookHandler (.object [("event", .boolean true)]) (.error "x") (.ok ()) "T").status = 500 :=
  (event_truthy_nonstring_500 (.object [("event", .boolean true)])
    (.error "x") (.ok ()) "T" rfl).1

/-- Counterexample to C10 as stated: the event field present as the
    non-string boolean false (and likewise an array) yields a 200, not a
    500, because false is falsy and defaults the tag to "message" while an
    array has its own includes method. -/
theorem event_falsy_nonstring_cex :
    jget (.object [("event", .boolean false)]) "event" = .boolean false
    ∧ (webhookHandler (.object [("event", .boolean false)]) (.error "x") (.ok ()) "T").status = 200
    ∧ jget (.object [("event", .array [.string "message"]), ("body", .string "hello")]) "event"
        = .array [.string "message"]
    ∧ (webhookHandler (.object [("event", .array [.string "message"]), ("body", .string "hello")])
        (.error "x") (.ok ()) "T").status = 200 :=
  ⟨rfl, rfl, rfl, rfl⟩

/-- A value that is either an absent field or a string, the shapes the
    name fields take in practice. -/
def isStrLike (v : JSVal) : Prop := v = .undefv ∨ ∃ s, v = .string s

/-- The string carried by a string value, empty for an absent field. -/
def strOf : JSVal → String
  | .string s => s
  | _ => ""

/-- The sourceName chain as the spec words it: the first non-empty string
    in the list, else the default. -/
def firstNonEmpty : List String → String → String
  | [], d => d
  | s :: rest, d => if s = "" then firstNonEmpty rest d else s

/-- The substring of a string before its first at sign (split('@')[0]). -/
def beforeFirstAt (s : String) : String := ⟨s.data.takeWhile (fun c => c != '@')⟩

/-- One step of the logical-or fallback chain: prepending a string-like
    value to an already-collapsed chain collapses to the first-non-empty
    of the extended list. -/
theorem chain_step (v : JSVal) (hv : isStrLike v) (k : Except String JSVal)
    (l : List String) (d : String)
    (hk : k = .ok (.string (firstNonEmpty l d))) :
    (if truthy v then Except.ok v else k) =
      .ok (.string (firstNonEmpty (strOf v :: l) d)) := by
  rcases hv with rfl | ⟨s, rfl⟩
  · simp [truthy, strOf, firstNonEmpty, hk]
  · by_cases hs : s = ""
    · subst hs
      simp [truthy, strOf, firstNonEmpty, hk]
    · simp [truthy, strOf, firstNonEmpty, hs]

/-- Claim C6: when the name fields are strings or absent and the chat id
    is a string, sourceName is the first non-empty value in the chain
    nested notifyName, top-level notifyName, pushName, nested chat name,
    the chat id's part before its first at sign, and finally "Unknown". -/
theorem sourceName_fallback_chain (md : JSVal) (cid : String)
    (h1 : isStrLike (jget (jget md "_data") "notifyName"))
    (h2 : isStrLike (jget md "notifyName"))
    (h3 : isStrLike (jget md "pushName"))
    (h4 : isStrLike (jget (jget md "chat") "name")) :
    sourceNameOf md (.string cid) = .ok (.string (firstNonEmpty
      [strOf (jget (jget md "_data") "notifyName"),
       strOf (jget md "notifyName"),
       strOf (jget md "pushName"),
       strOf (jget (jget md "chat") "name"),
       beforeFirstAt cid] "Unknown")) := by
  have base : (match splitAtFirst (.string cid) with
      | .error e => Except.error e
      | .ok part => Except.ok (jsOr part (.string "Unknown"))) =
      Except.ok (.string (firstNonEmpty [beforeFirstAt cid] "Unknown")) := by
    show Except.ok (jsOr (.string (beforeFirstAt cid)) (.string "Unknown")) = _
    unfold jsOr
    by_cases hb : beforeFirstAt cid = ""
    · rw [hb]
      simp [truthy, firstNonEmpty]
    · rw [if_pos (by simp [truthy, hb])]
      simp [firstNonEmpty, hb]
  show (if truthy (jget (jget md "_data") "notifyName") then _ else _) = _
  exact chain_step _ h1 _ _ _ (chain_step _ h2 _ _ _ (chain_step _ h3 _ _ _
    (chain_step _ h4 _ _ _ base)))

/-- Witness for C6 at the two examples of the claim: a bare group chat id
    yields its local part, and a fully absent payload yields "Unknown". -/
theorem sourceName_fallback_chain_witness :
    sourceNameOf (.object [("chatId", .string "1234@g.us")]) (.string "1234@g.us")
      = .ok (.string "1234")
    ∧ sourceNameOf (.object []) (.string "") = .ok (.string "Unknown") := by
  constructor
  · have h := sourceName_fallback_chain (.object [("chatId", .string "1234@g.us")])
      "1234@g.us" (Or.inl rfl) (Or.inl rfl) (Or.inl rfl) (Or.inl rfl)
    exact h
  · have h := sourceName_fallback_chain (.object []) ""
      (Or.inl rfl) (Or.inl rfl) (Or.inl rfl) (Or.inl rfl)
    exact h

/-- Claim C7 (amended): for a classification whose isActionItem is truthy,
    the sink record carries the timestamp, sourceName, body, chatId,
    status "Open", and the classification's responsible, urgency and due
    fields, where omitted OR FALSY (e.g. empty-string) fields are replaced
    by "Unknown", "Normal" and "None"; the handler responds processed with
    isActionItem true and the classification. -/
theorem actionRecord_fields (payload : JSVal) (llm : Except String String)
    (sink : Except String Unit) (now : String) (sn : JSVal)
    (hev : includesMessage (eventTagOf payload) = .ok true)
    (hfm : truthy (fromMeOf (messageDataOf payload)) = false)
    (hsys : isSystemMessageJS (bodyOf (messageDataOf payload)) = .ok false)
    (hsn : sourceNameOf (messageDataOf payload) (chatIdOf (messageDataOf payload)) = .ok sn)
    (hact : truthy (jget (classifyWithGPT llm) "isActionItem") = true) :
    (webhookHandler payload llm sink now).status = 200
    ∧ (webhookHandler payload llm sink now).resBody =
        .object [("status", .string "processed"), ("isActionItem", .boolean true),
                 ("classification", classifyWithGPT llm)]
    ∧ (webhookHandler payload llm sink now).sinkCalled = true
    ∧ (webhookHandler payload llm sink now).sinkRecord = some (.object
        [("timestamp", .string now),
         ("source", sn),
         ("message", bodyOf (messageDataOf payload)),
         ("responsible", if truthy (jget (classifyWithGPT llm) "responsible") = true
            then jget (classifyWithGPT llm) "responsible" else .string "Unknown"),
         ("urgency", if truthy (jget (classifyWithGPT llm) "urgency") = true
            then jget (classifyWithGPT llm) "urgency" else .string "Normal"),
         ("due", if truthy (jget (classifyWithGPT llm) "due") = true
            then jget (classifyWithGPT llm) "due" else .string "None"),
         ("status", .string "Open"),
         ("chatId", chatIdOf (messageDataOf payload))]) := by
  have h1 : webhookTry payload llm sink now = .ok
      { status := 200
        resBody := .object [("status", .string "processed"), ("isActionItem", .boolean true),
                            ("classification", classifyWithGPT llm)]
        classifierCalled := true
        sinkCalled := true
        sinkRecord := some (sheetDataOf now sn (bodyOf (messageDataOf payload))
          (classifyWithGPT llm) (chatIdOf (messageDataOf payload))) } := by
    unfold webhookTry
    rw [hev]
    simp only [Bool.not_true, Bool.false_eq_true, if_false]
    rw [if_neg (by simp [hfm])]
    rw [hsys]
    simp only [Bool.false_eq_true, if_false]
    rw [hsn]
    simp only []
    rw [if_pos hact]
  have h2 : webhookHandler payload llm sink now =
      { status := 200
        resBody := .object [("status", .string "processed"), ("isActionItem", .boolean true),
                            ("classification", classifyWithGPT llm)]
        classifierCalled := true
        sinkCalled := true
        sinkRecord := some (sheetDataOf now sn (bodyOf (messageDataOf payload))
          (classifyWithGPT llm) (chatIdOf (messageDataOf payload))) } := by
    unfold webhookHandler
    rw [h1]
  rw [h2]
  exact ⟨rfl, rfl, rfl, rfl⟩

/-- Witness for C7 at the end-to-end example of the spec: the record sent
    to the sink carries source Alice, urgency Urgent, status Open and the
    chat id, and is produced through the theorem. -/
theorem actionRecord_fields_witness :
    (webhookHandler
      (.object [("event", .string "message"), ("payload", .object
        [("body", .string "Please send the contract by Monday, urgent!"),
         ("fromMe", .boolean false), ("chatId", .string "999@c.us"),
         ("notifyName", .string "Alice")])])
      (.ok "\x7b\"isActionItem\":true,\"responsible\":\"Alice\",\"urgency\":\"Urgent\",\"due\":\"Monday\",\"summary\":\"Send contract\"\x7d")
      (.ok ()) "T0").sinkRecord = some (.object
        [("timestamp", .string "T0"),
         ("source", .string "Alice"),
         ("message", .string "Please send the contract by Monday, urgent!"),
         ("responsible", .string "Alice"),
         ("urgency", .string "Urgent"),
         ("due", .string "Monday"),
         ("status", .string "Open"),
         ("chatId", .string "999@c.us")]) :=
  (actionRecord_fields
    (.object [("event", .string "message"), ("payload", .object
      [("body", .string "Please send the contract by Monday, urgent!"),
       ("fromMe", .boolean false), ("chatId", .string "999@c.us"),
       ("notifyName", .string "Alice")])])
    (.ok "\x7b\"isActionItem\":true,\"responsible\":\"Alice\",\"urgency\":\"Urgent\",\"due\":\"Monday\",\"summary\":\"Send contract\"\x7d")
    (.ok ()) "T0" (.string "Alice") rfl rfl rfl rfl rfl).2.2.2

/-- Counterexample to C7 as stated: a classification whose responsible
    field is PRESENT but empty is not "omitted", yet the record replaces
    it by "Unknown", because the source defaults on any falsy field. -/
theorem actionRecord_falsy_default_cex :
    jget (classifyWithGPT (.ok "\x7b\"isActionItem\":true,\"responsible\":\"\"\x7d"))
      "responsible" = .string ""
    ∧ (webhookHandler
        (.object [("body", .string "Please pay"), ("notifyName", .string "Al"),
                  ("chatId", .string "1@c.us")])
        (.ok "\x7b\"isActionItem\":true,\"responsible\":\"\"\x7d")
        (.ok ()) "T0").sinkRecord = some (.object
          [("timestamp", .string "T0"),
           ("source", .string "Al"),
           ("message", .string "Please pay"),
           ("responsible", .string "Unknown"),
           ("urgency", .string "Normal"),
           ("due", .string "None"),
           ("status", .string "Open"),
           ("chatId", .string "1@c.us")]) :=
  ⟨rfl, rfl⟩

/-- The greedy brace match on a decomposed input: with no left brace
    before and no right brace after the delimited block, the match is
    exactly the block. -/
theorem jsonExtractL_spec (p' m q' : List Char)
    (hp : ∀ c ∈ p', (c != lbrace) = true)
    (hq : ∀ c ∈ q', (c != rbrace) = true) :
    jsonExtractL (p' ++ (lbrace :: (m ++ [rbrace])) ++ q') =
      some (lbrace :: (m ++ [rbrace])) := by
  have h1 : (p' ++ (lbrace :: (m ++ [rbrace])) ++ q').dropWhile (fun c => c != lbrace)
      = lbrace :: ((m ++ [rbrace]) ++ q') := by
    rw [List.append_assoc]
    rw [dropWhile_all_true _ p' _ hp]
    simp [List.dropWhile_cons]
  unfold jsonExtractL
  rw [h1]
  simp only []
  have h2 : (((m ++ [rbrace]) ++ q').reverse).dropWhile (fun c => c != rbrace)
      = rbrace :: m.reverse := by
    rw [List.reverse_append]
    rw [dropWhile_all_true _ q'.reverse _ (fun c hc => hq c (List.mem_reverse.mp hc))]
    simp [List.reverse_append, List.dropWhile_cons]
  rw [h2]
  simp

/-- Claim C2 (amended): the classifier extracts the substring running from
    the FIRST left brace to the LAST right brace of the model output (a
    greedy match, not the first balanced object) and parses it; hence for
    any output consisting of one valid JSON object surrounded by prose
    with no left brace before the object and no right brace after it, the
    classification is exactly that parsed object. -/
theorem classify_embedded_json (p j q : String) (m : List Char) (v : JSVal)
    (hp : ∀ c ∈ p.data, c ≠ lbrace)
    (hq : ∀ c ∈ q.data, c ≠ rbrace)
    (hj : j.data = lbrace :: (m ++ [rbrace]))
    (hv : JSONparse j = some v) :
    classifyWithGPT (.ok (p ++ j ++ q)) = v := by
  have hjrev : j.data.reverse = rbrace :: (m.reverse ++ [lbrace]) := by
    rw [hj]
    simp
  have hdata : (p ++ j ++ q).data = p.data ++ (j.data ++ q.data) := by
    rw [String.data_append, String.data_append, List.append_assoc]
  obtain ⟨p', hpd, hpsub⟩ := dropWhile_append_stop jsWhitespace p.data (j.data ++ q.data)
    (by
      intro c hc
      rw [hj] at hc
      simp only [List.cons_append, List.head?_cons, Option.some.injEq] at hc
      subst hc
      decide)
  obtain ⟨q'', hqd, hqsub⟩ := dropWhile_append_stop jsWhitespace q.data.reverse
    (j.data.reverse ++ p'.reverse)
    (by
      intro c hc
      rw [hjrev] at hc
      simp only [List.cons_append, List.head?_cons, Option.some.injEq] at hc
      subst hc
      decide)
  have htrim : jsTrim (p ++ j ++ q) = ⟨p' ++ (j.data ++ q''.reverse)⟩ := by
    unfold jsTrim
    rw [hdata, hpd]
    have hrev : (p' ++ (j.data ++ q.data)).reverse
        = q.data.reverse ++ (j.data.reverse ++ p'.reverse) := by
      simp [List.reverse_append]
    rw [hrev, hqd]
    congr 1
    simp [List.reverse_append]
  have hext : jsonExtract ⟨p' ++ (j.data ++ q''.reverse)⟩ = some j := by
    unfold jsonExtract
    have hL : jsonExtractL (p' ++ (j.data ++ q''.reverse))
        = some (lbrace :: (m ++ [rbrace])) := by
      have hshape : p' ++ (j.data ++ q''.reverse)
          = p' ++ (lbrace :: (m ++ [rbrace])) ++ q''.reverse := by
        rw [hj, List.append_assoc]
      rw [hshape]
      apply jsonExtractL_spec
      · intro c hc
        simp only [bne_iff_ne, ne_eq]
        exact hp c (hpsub c hc)
      · intro c hc
        simp only [bne_iff_ne, ne_eq]
        exact hq c (List.mem_reverse.mp (hqsub c (List.mem_reverse.mp hc)))
    show (jsonExtractL (String.data ⟨p' ++ (j.data ++ q''.reverse)⟩)).map
      (fun l => (⟨l⟩ : String)) = some j
    have hmk : (⟨lbrace :: (m ++ [rbrace])⟩ : String) = j := String.ext (by rw [hj])
    rw [show String.data ⟨p' ++ (j.data ++ q''.reverse)⟩
      = p' ++ (j.data ++ q''.reverse) from rfl]
    rw [hL]
    simp only [Option.map_some']
    rw [hmk]
  simp only [classifyWithGPT]
  rw [htrim, hext]
  simp only []
  rw [hv]

/-- Witness for C2: a JSON object surrounded by brace-free prose parses to
    exactly that object. -/
theorem classify_embedded_json_witness :
    classifyWithGPT (.ok ("Here is the result: " ++ "\x7b\"isActionItem\": true\x7d" ++ " as requested."))
      = .object [("isActionItem", .boolean true)] :=
  classify_embedded_json "Here is the result: " "\x7b\"isActionItem\": true\x7d"
    " as requested." ("\"isActionItem\": true".data)
    (.object [("isActionItem", .boolean true)])
    (by decide) (by decide) rfl rfl

/-- Counterexample to C2 as stated: for the output consisting of the valid
    JSON object with isActionItem true followed by a stray brace pair, the
    first balanced object parses to isActionItem true, but the greedy
    match spans to the LAST right brace, fails to parse, and the
    classifier falls back to the default instead of that object. -/
theorem classify_greedy_extraction_cex :
    JSONparse "\x7b\"isActionItem\":true\x7d" = some (.object [("isActionItem", .boolean true)])
    ∧ jsonExtract "\x7b\"isActionItem\":true\x7d \x7b\x7d"
        = some "\x7b\"isActionItem\":true\x7d \x7b\x7d"
    ∧ classifyWithGPT (.ok "\x7b\"isActionItem\":true\x7d \x7b\x7d") = defaultClassification
    ∧ defaultClassification ≠ JSVal.object [("isActionItem", .boolean true)] := by
  refine ⟨rfl, rfl, rfl, ?_⟩
  intro h
  simp [defaultClassification] at h
